import Mathlib

/-!
Verification of the double-entry bookkeeping derivation engine and the
deterministic accounting-aggregation task layer of the IA_Contable repository.

The Python source is shallowly embedded: monetary amounts (Python floats
carrying exact decimal business data) are modelled as rationals, SQLite tables
as Lean lists of row structures, and fallible operations (SQL errors, Python
exceptions) as values of the Except monad.
-/

namespace IAContable

/-- A row of the journal_entries table, as produced by
generate_journal_entries_for_transaction in src/ingestion/pipeline.py
(the remaining schema columns id, entry_number, reference, created_at are
database-assigned and never touched by the embedded logic). -/
structure JEntry where
  transaction_id : Nat
  entry_date : String
  account_code : String
  debit : ℚ
  credit : ℚ
  description : String
  deriving Repr, DecidableEq

/-- Embedding of generate_journal_entries_for_transaction
(src/ingestion/pipeline.py lines 101-189): builds the double-entry posting
list for one transaction.  The Python builds the list by successive appends
guarded by the transaction type and by tax_amount > 0; the embedding writes
the same list with the same guards. -/
def generate_journal_entries_for_transaction
    (transaction_id : Nat) (transaction_date : String)
    (transaction_type : String)
    (amount subtotal tax_amount : ℚ) (description : String) : List JEntry :=
  if transaction_type = "sales_invoice" then
    [⟨transaction_id, transaction_date, "1105", amount, 0,
      "Ingreso por venta - " ++ description⟩,
     ⟨transaction_id, transaction_date, "4135", 0, subtotal,
      "Venta - " ++ description⟩] ++
    (if 0 < tax_amount then
      [⟨transaction_id, transaction_date, "2408", 0, tax_amount,
        "IVA venta - " ++ description⟩]
     else [])
  else if transaction_type = "purchase_invoice" then
    [⟨transaction_id, transaction_date, "6205", subtotal, 0,
      "Compra - " ++ description⟩] ++
    (if 0 < tax_amount then
      [⟨transaction_id, transaction_date, "2408", tax_amount, 0,
        "IVA compra - " ++ description⟩]
     else []) ++
    [⟨transaction_id, transaction_date, "1105", 0, amount,
      "Pago compra - " ++ description⟩]
  else []

/-- Total of the debit column over a list of journal entries. -/
def sumDebit (es : List JEntry) : ℚ := (es.map JEntry.debit).sum

/-- Total of the credit column over a list of journal entries. -/
def sumCredit (es : List JEntry) : ℚ := (es.map JEntry.credit).sum

/-! ### Transaction normalizer (ingest_excel row handling) -/

/-- A Python cell value as seen by row.get in ingest_excel: absent (None),
a numeric value, or a text value. -/
inductive PyVal where
  | pnone
  | pnum (q : ℚ)
  | pstr (s : String)
  deriving Repr, DecidableEq

/-- Python truthiness for the cell values above: None is falsy, a number is
truthy iff non-zero, a string is truthy iff non-empty. -/
def truthy : PyVal → Bool
  | .pnone => false
  | .pnum q => q != 0
  | .pstr s => s != ""

/-- Numeric value of a decimal digit character, if it is one. -/
def digitVal? (c : Char) : Option Nat :=
  if '0' ≤ c ∧ c ≤ '9' then some (c.toNat - '0'.toNat) else none

/-- Reads a non-empty run of decimal digit characters as a natural number. -/
def natOfChars : List Char → Option Nat
  | [] => none
  | l => l.foldl (fun acc c => acc.bind fun a => (digitVal? c).map fun d => a * 10 + d)
      (some 0)

/-- Reads an unsigned decimal literal, with an optional fractional part, as an
exact rational. -/
def parseUnsigned? (l : List Char) : Option ℚ :=
  let p := l.span fun c => c ≠ '.'
  match p.2 with
  | [] => (natOfChars p.1).map fun n => (n : ℚ)
  | _ :: frac =>
    match natOfChars p.1, natOfChars frac with
    | some ip, some fp => some ((ip : ℚ) + (fp : ℚ) / ((10 : ℚ) ^ frac.length))
    | _, _ => none

/-- Model of the Python float(s) string conversion, restricted to plain
decimal literals with an optional sign: returns none exactly when float()
would raise ValueError. -/
def parseFloat? (s : String) : Option ℚ :=
  match s.data with
  | '-' :: rest => (parseUnsigned? rest).map Neg.neg
  | '+' :: rest => parseUnsigned? rest
  | l => parseUnsigned? l

/-- Model of applying Python float() to a cell value: numbers pass through,
strings parse or raise ValueError, None raises TypeError.  The error value is
unit: ingest_excel catches ValueError and TypeError alike. -/
def toFloat : PyVal → Except Unit ℚ
  | .pnum q => .ok q
  | .pstr s => match parseFloat? s with
    | some q => .ok q
    | none => .error ()
  | .pnone => .error ()

/-- The numeric cells of one normalized spreadsheet row, after the column
aliasing of ingest_excel has renamed cantidad, precio unitario, subtotal, iva
and total onto the canonical names. -/
structure Row where
  quantity : PyVal
  unit_price : PyVal
  subtotal : PyVal
  tax_amount : PyVal
  amount : PyVal
  deriving Repr, DecidableEq

/-- The five numeric fields derived for one row by the Montos block of
ingest_excel. -/
structure Montos where
  quantity : ℚ
  unit_price : ℚ
  subtotal : ℚ
  tax_amount : ℚ
  amount : ℚ
  deriving Repr, DecidableEq

/-- One field of the Montos block: float(cell) when the cell is truthy,
otherwise the given fallback expression. -/
def montoStep (cell : PyVal) (fallback : ℚ) : Except Unit ℚ :=
  if truthy cell then toFloat cell else .ok fallback

/-- The try-block of the Montos section of ingest_excel
(src/ingestion/pipeline.py lines 251-256): each field is float(cell) when the
cell is truthy, and otherwise the documented fallback (1 for quantity, 0 for
unit_price and tax_amount, quantity * unit_price for subtotal,
subtotal + tax_amount for amount).  An exception anywhere aborts the block. -/
def montosExc (r : Row) : Except Unit Montos :=
  match montoStep r.quantity 1 with
  | .error e => .error e
  | .ok quantity =>
    match montoStep r.unit_price 0 with
    | .error e => .error e
    | .ok unit_price =>
      match montoStep r.subtotal (quantity * unit_price) with
      | .error e => .error e
      | .ok subtotal =>
        match montoStep r.tax_amount 0 with
        | .error e => .error e
        | .ok tax_amount =>
          match montoStep r.amount (subtotal + tax_amount) with
          | .error e => .error e
          | .ok amount => .ok ⟨quantity, unit_price, subtotal, tax_amount, amount⟩

/-- The Montos block with its except-handler
(src/ingestion/pipeline.py lines 251-258): on ValueError or TypeError the
five fields default to quantity = 1 and 0 for the rest, and the row is still
emitted. -/
def montos (r : Row) : Montos :=
  match montosExc r with
  | .ok m => m
  | .error _ => ⟨1, 0, 0, 0, 0⟩

/-- Debit field of the single TransactionLine emitted for a row
(src/ingestion/pipeline.py line 280): the row amount for a purchase batch,
otherwise 0. -/
def lineDebit (doc_type : String) (r : Row) : ℚ :=
  if doc_type = "purchase_invoice" then (montos r).amount else 0

/-- Credit field of the single TransactionLine emitted for a row
(src/ingestion/pipeline.py line 281): the row amount for a sales batch,
otherwise 0. -/
def lineCredit (doc_type : String) (r : Row) : ℚ :=
  if doc_type = "sales_invoice" then (montos r).amount else 0

/-! ### Transaction-number deduplication (ingest_excel lines 227-244) -/

/-- Little-endian decimal digits of n, computed with explicit fuel so that the
definition unfolds by kernel reduction; decAux fuel n agrees with
Nat.digits 10 n whenever n < fuel. -/
def decAux : Nat → Nat → List Nat
  | 0, _ => []
  | fuel + 1, n => if n = 0 then [] else n % 10 :: decAux fuel (n / 10)

/-- Model of the Python str(n) decimal rendering of a natural number used by
the f-string that builds the -DUP suffix. -/
def decStr (n : Nat) : String :=
  if n = 0 then "0" else ⟨((decAux (n + 1) n).map Nat.digitChar).reverse⟩

/-- The candidate transaction numbers tried by the uniqueness loop of
ingest_excel, in order: the raw number itself, then raw-DUP1, raw-DUP2, ... -/
def nthCandidate (x : String) : Nat → String
  | 0 => x
  | n + 1 => x ++ "-DUP" ++ decStr (n + 1)

/-- Embedding of the while-loop of ingest_excel lines 238-242: starting from
the raw number, try raw, raw-DUP1, raw-DUP2, ... and keep the first candidate
not already used.  The search space n = 0 .. used.length + 1 always contains
an unused candidate (proved below), so the Option.getD default is never
taken. -/
def freshNumber (used : List String) (x : String) : String :=
  (((List.range (used.length + 2)).map (nthCandidate x)).find?
    fun c => decide (c ∉ used)).getD x

/-- Embedding of the per-row uniqueness resolution across one ingestion batch
(ingest_excel lines 233-244): each raw number is deduplicated against the
pre-existing ledger numbers plus the numbers already assigned in the batch,
and the chosen number is added to the used set. -/
def assignNumbers (used : List String) : List String → List String
  | [] => []
  | x :: xs =>
    let a := freshNumber used x
    a :: assignNumbers (a :: used) xs

/-! ### Chart-of-accounts manager (pipeline.py lines 75-98) -/

/-- A row of the accounts table (id is database-assigned, currency defaulted;
code carries a UNIQUE constraint). -/
structure ARow where
  code : String
  name : String
  account_type : String
  balance : ℚ
  is_active : Bool
  deriving Repr, DecidableEq

/-- Embedding of ensure_account_exists (pipeline.py lines 75-85): INSERT OR
IGNORE into accounts, whose code column is UNIQUE, appends the new row
exactly when no row with that code exists. -/
def ensure_account_exists (table : List ARow)
    (account_code account_name account_type : String) : List ARow :=
  if table.any fun a => a.code == account_code then table
  else table ++ [⟨account_code, account_name, account_type, 0, true⟩]

/-- Embedding of ensure_default_accounts (pipeline.py lines 88-98): ensures
the four fixed accounts used by the posting engine. -/
def ensure_default_accounts (table : List ARow) : List ARow :=
  ensure_account_exists
    (ensure_account_exists
      (ensure_account_exists
        (ensure_account_exists table "1105" "Caja" "Activo")
        "4135" "Ingresos por ventas" "Ingreso")
      "2408" "IVA" "Pasivo")
    "6205" "Gastos de operación" "Gasto"

/-- Number of account rows carrying a given code. -/
def countCode (table : List ARow) (code : String) : Nat :=
  (table.filter fun a => a.code == code).length

/-! ### Ledger state and the accounting task layer (src/ai/accounting_tasks.py) -/

/-- A row of the transactions table (fields the task layer reads). -/
structure TRow where
  transaction_date : String
  transaction_type : String
  transaction_number : String
  counterparty : String
  amount : ℚ
  status : String
  deriving Repr, DecidableEq

/-- A row of the transaction_lines table (fields the task layer reads). -/
structure LRow where
  transaction_id : Nat
  debit : ℚ
  credit : ℚ
  tax_amount : ℚ
  category : String
  deriving Repr, DecidableEq

/-- The ledger: the tables read by the accounting task layer. -/
structure Ledger where
  transactions : List TRow
  transaction_lines : List LRow
  journal_entries : List JEntry
  deriving Repr, DecidableEq

/-- The column names of the journal_entries table
(src/db/database.py lines 85-98).  The date column is entry_date: there is no
column named date. -/
def journalEntriesColumns : List String :=
  ["id", "entry_date", "entry_number", "transaction_id", "account_code",
   "debit", "credit", "description", "reference", "created_at"]

/-- The column names of the transactions table
(src/db/database.py lines 37-52).  The date column is transaction_date: there
is no column named date. -/
def transactionsColumns : List String :=
  ["id", "document_id", "transaction_date", "transaction_type",
   "transaction_number", "counterparty", "description", "amount", "currency",
   "payment_method", "status", "tags", "created_at"]

/-- The column names of the transaction_lines table
(src/db/database.py lines 55-71).  There is no date column at all. -/
def transactionLinesColumns : List String :=
  ["id", "transaction_id", "line_number", "account_code", "account_name",
   "debit", "credit", "description", "quantity", "unit_price", "subtotal",
   "tax_rate", "tax_amount", "category"]

/-- Model of SQLite identifier resolution for the date filter the task layer
builds: when a start or end bound is supplied, every generated condition
references a bare column named date; executing the statement fails with
OperationalError (no such column) unless the table has that column. -/
def dateFilterCheck (cols : List String) (start_date end_date : Option String) :
    Except String Unit :=
  if start_date.isSome || end_date.isSome then
    if "date" ∈ cols then .ok () else .error "no such column: date"
  else .ok ()

/-- SUM(debit - credit) over the journal entries whose account_code starts
with the given digit, with SQL NULL-on-empty coalesced to 0 by the
Python-side or 0. -/
def sumDebitMinusCredit (L : Ledger) (digit : String) : ℚ :=
  ((L.journal_entries.filter fun e => e.account_code.startsWith digit).map
    fun e => e.debit - e.credit).sum

/-- SUM(credit - debit) over the journal entries whose account_code starts
with the given digit, with SQL NULL-on-empty coalesced to 0. -/
def sumCreditMinusDebit (L : Ledger) (digit : String) : ℚ :=
  ((L.journal_entries.filter fun e => e.account_code.startsWith digit).map
    fun e => e.credit - e.debit).sum

/-- Result record of AccountingTasks.balance_sheet. -/
structure BalanceSheetRes where
  activos : ℚ
  pasivos : ℚ
  patrimonio : ℚ
  total_pasivo_patrimonio : ℚ
  deriving Repr, DecidableEq

/-- Embedding of AccountingTasks.balance_sheet (accounting_tasks.py lines
14-69).  With a date bound present the three generated queries each carry the
condition date >= ? or date <= ? against journal_entries, whose columns do
not include date, so execution stops at the first query with an
OperationalError; the row filter itself is therefore never evaluated. -/
def balance_sheet (L : Ledger) (start_date end_date : Option String) :
    Except String BalanceSheetRes := do
  let _ ← dateFilterCheck journalEntriesColumns start_date end_date
  let activos := sumDebitMinusCredit L "1"
  let pasivos := sumCreditMinusDebit L "2"
  let patrimonio := sumCreditMinusDebit L "3"
  return ⟨activos, pasivos, patrimonio, pasivos + patrimonio⟩

/-- Result record of AccountingTasks.income_statement. -/
structure IncomeStatementRes where
  ingresos : ℚ
  costos : ℚ
  utilidad_bruta : ℚ
  gastos_operacionales : ℚ
  utilidad_neta : ℚ
  deriving Repr, DecidableEq

/-- Embedding of AccountingTasks.income_statement (accounting_tasks.py lines
72-131); the date filter behaves exactly as in balance_sheet. -/
def income_statement (L : Ledger) (start_date end_date : Option String) :
    Except String IncomeStatementRes := do
  let _ ← dateFilterCheck journalEntriesColumns start_date end_date
  let ingresos := sumCreditMinusDebit L "4"
  let costos := sumDebitMinusCredit L "5"
  let gastos := sumDebitMinusCredit L "6"
  return ⟨ingresos, costos, ingresos - costos, gastos, ingresos - costos - gastos⟩

/-- Result record of AccountingTasks.cash_flow. -/
structure CashFlowRes where
  ingresos_totales : ℚ
  egresos_totales : ℚ
  flujo_neto : ℚ
  deriving Repr, DecidableEq

/-- Embedding of AccountingTasks.cash_flow (accounting_tasks.py lines
226-265): sums transaction amounts by type; a date bound adds a condition on
the nonexistent date column of transactions. -/
def cash_flow (L : Ledger) (start_date end_date : Option String) :
    Except String CashFlowRes := do
  let _ ← dateFilterCheck transactionsColumns start_date end_date
  let ingresos := ((L.transactions.filter
    fun t => t.transaction_type == "sales_invoice").map TRow.amount).sum
  let egresos := ((L.transactions.filter
    fun t => t.transaction_type == "purchase_invoice").map TRow.amount).sum
  return ⟨ingresos, egresos, ingresos - egresos⟩

/-- Embedding of AccountingTasks.expenses_by_category (accounting_tasks.py
lines 192-223): SUM(credit) grouped by category over lines with credit > 0,
descending by total; a date bound appends a condition on the nonexistent date
column of transaction_lines.  Groups are returned as category-total pairs. -/
def expenses_by_category (L : Ledger) (start_date end_date : Option String) :
    Except String (List (String × ℚ)) := do
  let _ ← dateFilterCheck transactionLinesColumns start_date end_date
  let rows := L.transaction_lines.filter fun l => 0 < l.credit
  let cats := (rows.map LRow.category).dedup
  let grouped := cats.map fun c =>
    (c, ((rows.filter fun l => l.category == c).map LRow.credit).sum)
  return grouped.mergeSort fun a b => b.2 ≤ a.2

/-- Result record of AccountingTasks.sales_summary and purchase_summary. -/
structure SummaryRes where
  total_count : ℚ
  total_amount : ℚ
  average : ℚ
  minimum : ℚ
  maximum : ℚ
  distinct_counterparties : Nat
  deriving Repr, DecidableEq

/-- COUNT, SUM, AVG, MIN, MAX of amount and COUNT(DISTINCT counterparty) over
the transactions of one type, with every SQL NULL (empty aggregate) coalesced
to 0 by the Python-side or 0; AVG is SUM/COUNT on a non-empty set. -/
def summaryOfType (L : Ledger) (ty : String) : SummaryRes :=
  let rows := L.transactions.filter fun t => t.transaction_type == ty
  let amounts := rows.map TRow.amount
  { total_count := rows.length
    total_amount := amounts.sum
    average := if rows.length = 0 then 0 else amounts.sum / rows.length
    minimum := amounts.foldr min (amounts.headD 0)
    maximum := amounts.foldr max (amounts.headD 0)
    distinct_counterparties := ((rows.map TRow.counterparty).dedup).length }

/-- Embedding of AccountingTasks.sales_summary (accounting_tasks.py lines
134-160): the year and month parameters are accepted but the SQL never
mentions them; the aggregates always cover every sales_invoice
transaction. -/
def sales_summary (L : Ledger) (year month : Option Int) : SummaryRes :=
  summaryOfType L "sales_invoice"

/-- Embedding of AccountingTasks.purchase_summary (accounting_tasks.py lines
163-189): the year and month parameters are accepted but the SQL never
mentions them; the aggregates always cover every purchase_invoice
transaction. -/
def purchase_summary (L : Ledger) (year month : Option Int) : SummaryRes :=
  summaryOfType L "purchase_invoice"

/-- Result record of AccountingTasks.profit_margin_analysis. -/
structure ProfitMarginRes where
  margen_bruto : ℚ
  margen_neto : ℚ
  deriving Repr, DecidableEq

/-- Python division, raising ZeroDivisionError on a zero divisor. -/
def pyDiv (a b : ℚ) : Except String ℚ :=
  if b = 0 then .error "ZeroDivisionError" else .ok (a / b)

/-- Embedding of AccountingTasks.profit_margin_analysis (accounting_tasks.py
lines 326-343): calls income_statement with no date bounds, returns zero
margins when revenue is 0, and otherwise divides by revenue. -/
def profit_margin_analysis (L : Ledger) : Except String ProfitMarginRes := do
  let income ← income_statement L none none
  if income.ingresos = 0 then
    return ⟨0, 0⟩
  else
    let mb ← pyDiv income.utilidad_bruta income.ingresos
    let mn ← pyDiv income.utilidad_neta income.ingresos
    return ⟨mb * 100, mn * 100⟩

/-! ### Theorems about the journal posting engine -/

/-- C1 (counterexample): the claim asserts that for every sales_invoice or
purchase_invoice argument tuple the generated entries have debit total equal
to credit total equal to amount.  At amount = 10, subtotal = 3,
tax_amount = 5 (a sales invoice whose stored gross total does not equal
subtotal plus tax) the debit total is 10 but the credit total is 8, so the
claim as stated is false. -/
theorem C1_counterexample :
    ¬ (sumDebit (generate_journal_entries_for_transaction 1 "2025-01-15"
          "sales_invoice" 10 3 5 "venta") =
        sumCredit (generate_journal_entries_for_transaction 1 "2025-01-15"
          "sales_invoice" 10 3 5 "venta") ∧
       sumDebit (generate_journal_entries_for_transaction 1 "2025-01-15"
          "sales_invoice" 10 3 5 "venta") = 10) := by
  norm_num [generate_journal_entries_for_transaction, sumDebit, sumCredit]

/-- C1 (amended): for a sales_invoice or purchase_invoice whose arguments are
arithmetically consistent (amount = subtotal + tax_amount with
tax_amount nonnegative), the generated journal entries have debit total equal
to credit total, both equal to amount; the generator is a pure function of
its seven arguments. -/
theorem C1_balanced (tid : Nat) (date ty : String) (amount subtotal tax_amount : ℚ)
    (desc : String)
    (hty : ty = "sales_invoice" ∨ ty = "purchase_invoice")
    (hsum : amount = subtotal + tax_amount) (htax : 0 ≤ tax_amount) :
    sumDebit (generate_journal_entries_for_transaction tid date ty amount subtotal
        tax_amount desc) =
      sumCredit (generate_journal_entries_for_transaction tid date ty amount subtotal
        tax_amount desc) ∧
    sumDebit (generate_journal_entries_for_transaction tid date ty amount subtotal
        tax_amount desc) = amount := by
  rcases hty with rfl | rfl <;> rcases htax.lt_or_eq with hpos | hzero
  · simp [generate_journal_entries_for_transaction, sumDebit, sumCredit, hpos, hsum]
  · simp [generate_journal_entries_for_transaction, sumDebit, sumCredit, ← hzero, hsum]
  · simp [generate_journal_entries_for_transaction, sumDebit, sumCredit, hpos, hsum]
  · simp [generate_journal_entries_for_transaction, sumDebit, sumCredit, ← hzero, hsum]

/-- C1 (witness): the balance theorem at the concrete consistent sales
invoice of spec scenario P6. -/
theorem C1_balanced_witness :
    sumDebit (generate_journal_entries_for_transaction 1 "2025-01-15"
        "sales_invoice" 595000 500000 95000 "venta") =
      sumCredit (generate_journal_entries_for_transaction 1 "2025-01-15"
        "sales_invoice" 595000 500000 95000 "venta") ∧
    sumDebit (generate_journal_entries_for_transaction 1 "2025-01-15"
        "sales_invoice" 595000 500000 95000 "venta") = 595000 :=
  C1_balanced 1 "2025-01-15" "sales_invoice" 595000 500000 95000 "venta"
    (Or.inl rfl) (by norm_num) (by norm_num)

/-- C2: the generator returns exactly the documented entries: for a
sales_invoice a debit of amount to 1105 and a credit of subtotal to 4135,
plus a credit of tax_amount to 2408 exactly when tax_amount > 0; for a
purchase_invoice a debit of subtotal to 6205, a debit of tax_amount to 2408
exactly when tax_amount > 0, and a credit of amount to 1105; the empty list
for every other transaction type.  In particular an entry referencing 2408
exists if and only if tax_amount > 0. -/
theorem C2_entry_shape (tid : Nat) (date ty : String)
    (amount subtotal tax_amount : ℚ) (desc : String) :
    (generate_journal_entries_for_transaction tid date "sales_invoice" amount
        subtotal tax_amount desc =
      [⟨tid, date, "1105", amount, 0, "Ingreso por venta - " ++ desc⟩,
       ⟨tid, date, "4135", 0, subtotal, "Venta - " ++ desc⟩] ++
      (if 0 < tax_amount then
        [⟨tid, date, "2408", 0, tax_amount, "IVA venta - " ++ desc⟩] else [])) ∧
    (generate_journal_entries_for_transaction tid date "purchase_invoice" amount
        subtotal tax_amount desc =
      [⟨tid, date, "6205", subtotal, 0, "Compra - " ++ desc⟩] ++
      (if 0 < tax_amount then
        [⟨tid, date, "2408", tax_amount, 0, "IVA compra - " ++ desc⟩] else []) ++
      [⟨tid, date, "1105", 0, amount, "Pago compra - " ++ desc⟩]) ∧
    (ty ≠ "sales_invoice" → ty ≠ "purchase_invoice" →
      generate_journal_entries_for_transaction tid date ty amount subtotal
        tax_amount desc = []) ∧
    (∀ ty', ty' = "sales_invoice" ∨ ty' = "purchase_invoice" →
      ((∃ e ∈ generate_journal_entries_for_transaction tid date ty' amount subtotal
          tax_amount desc, e.account_code = "2408") ↔ 0 < tax_amount)) := by
  refine ⟨rfl, rfl, fun h1 h2 => ?_, fun ty' hty' => ?_⟩
  · simp [generate_journal_entries_for_transaction, h1, h2]
  · constructor
    · rintro ⟨e, he, hcode⟩
      by_contra hle
      rcases hty' with rfl | rfl <;>
        simp [generate_journal_entries_for_transaction, if_neg hle] at he <;>
        rcases he with rfl | rfl <;> simp at hcode
    · intro hpos
      rcases hty' with rfl | rfl
      · exact ⟨⟨tid, date, "2408", 0, tax_amount, "IVA venta - " ++ desc⟩,
          by simp [generate_journal_entries_for_transaction, if_pos hpos], rfl⟩
      · exact ⟨⟨tid, date, "2408", tax_amount, 0, "IVA compra - " ++ desc⟩,
          by simp [generate_journal_entries_for_transaction, if_pos hpos], rfl⟩

/-- C2 (witness): at a transaction type with no posting rule the result is
empty, and with zero tax no entry references account 2408. -/
theorem C2_entry_shape_witness :
    (generate_journal_entries_for_transaction 1 "2025-01-15" "loan_payment"
      10 8 2 "x" = []) ∧
    ¬ (∃ e ∈ generate_journal_entries_for_transaction 1 "2025-01-15"
        "sales_invoice" 7 7 0 "x", e.account_code = "2408") :=
  ⟨(C2_entry_shape 1 "2025-01-15" "loan_payment" 10 8 2 "x").2.2.1
      (by decide) (by decide),
   fun h => by
    have := ((C2_entry_shape 1 "2025-01-15" "sales_invoice" 7 7 0
        "x").2.2.2 "sales_invoice" (Or.inl rfl)).mp h
    norm_num at this⟩

/-! ### Theorems about the accounting task layer -/

/-- C3 (code bug): every date-bounded query built by the task layer
references a bare column named date, which exists in none of the tables
(the schema columns are entry_date and transaction_date), so a report called
with a start_date after every transaction date raises OperationalError
instead of returning zero-valued aggregates as the spec requires. -/
theorem C3_date_filter_raises (L : Ledger) (s : String)
    (hafter : ∀ t ∈ L.transactions, t.transaction_date < s) :
    balance_sheet L (some s) none = .error "no such column: date" ∧
    income_statement L (some s) none = .error "no such column: date" ∧
    cash_flow L (some s) none = .error "no such column: date" ∧
    expenses_by_category L (some s) none = .error "no such column: date" := by
  refine ⟨?_, ?_, ?_, ?_⟩ <;>
    simp [balance_sheet, income_statement, cash_flow, expenses_by_category,
      dateFilterCheck, journalEntriesColumns, transactionsColumns,
      transactionLinesColumns]

/-- C3 (witness): the failure at the concrete input of the claim: an empty
ledger and a start date later than every (vacuously, any) transaction
date. -/
theorem C3_date_filter_raises_witness :
    balance_sheet ⟨[], [], []⟩ (some "2030-01-01") none =
      .error "no such column: date" ∧
    income_statement ⟨[], [], []⟩ (some "2030-01-01") none =
      .error "no such column: date" ∧
    cash_flow ⟨[], [], []⟩ (some "2030-01-01") none =
      .error "no such column: date" ∧
    expenses_by_category ⟨[], [], []⟩ (some "2030-01-01") none =
      .error "no such column: date" :=
  C3_date_filter_raises ⟨[], [], []⟩ "2030-01-01" (by simp)

/-- C9: profit_margin_analysis on a ledger with zero revenue (the sum of
credit minus debit over journal entries whose account code starts with 4)
returns zero gross and net margins; moreover on every ledger it returns
normally, so the division by revenue can never raise ZeroDivisionError. -/
theorem C9_profit_margin_zero_safe (L : Ledger) :
    (sumCreditMinusDebit L "4" = 0 →
      profit_margin_analysis L = .ok ⟨0, 0⟩) ∧
    (∃ r, profit_margin_analysis L = .ok r) := by
  constructor
  · intro h
    simp [profit_margin_analysis, income_statement, dateFilterCheck, h,
      Bind.bind, Except.bind, Pure.pure, Except.pure]
  · by_cases h : sumCreditMinusDebit L "4" = 0
    · exact ⟨⟨0, 0⟩, by simp [profit_margin_analysis, income_statement,
        dateFilterCheck, h, Bind.bind, Except.bind, Pure.pure, Except.pure]⟩
    · refine ⟨?_, ?_⟩
      · exact ⟨(sumCreditMinusDebit L "4" - sumDebitMinusCredit L "5") /
            sumCreditMinusDebit L "4" * 100,
          (sumCreditMinusDebit L "4" - sumDebitMinusCredit L "5" -
            sumDebitMinusCredit L "6") / sumCreditMinusDebit L "4" * 100⟩
      · simp [profit_margin_analysis, income_statement, dateFilterCheck, h, pyDiv,
          Bind.bind, Except.bind, Pure.pure, Except.pure, Functor.map, Except.map]

/-- C9 (witness): on the empty ledger revenue is zero and the analysis
returns zero margins. -/
theorem C9_profit_margin_zero_safe_witness :
    profit_margin_analysis ⟨[], [], []⟩ = .ok ⟨0, 0⟩ :=
  (C9_profit_margin_zero_safe ⟨[], [], []⟩).1 rfl

/-- C10: sales_summary and purchase_summary ignore their year and month
parameters: any two calls on the same ledger return identical results, and
both always equal the unrestricted aggregate over all transactions of the
matching type. -/
theorem C10_period_params_ignored (L : Ledger) (y₁ m₁ y₂ m₂ : Option Int) :
    sales_summary L y₁ m₁ = sales_summary L y₂ m₂ ∧
    purchase_summary L y₁ m₁ = purchase_summary L y₂ m₂ ∧
    sales_summary L y₁ m₁ = summaryOfType L "sales_invoice" ∧
    purchase_summary L y₁ m₁ = summaryOfType L "purchase_invoice" :=
  ⟨rfl, rfl, rfl, rfl⟩

/-! ### Theorems about the chart-of-accounts manager -/

/-- Insert-or-ignore preserves any row predicate that already holds somewhere
in the table. -/
lemma ensure_preserves_any (t : List ARow) (c n ty : String) (p : ARow → Bool)
    (h : t.any p = true) : (ensure_account_exists t c n ty).any p = true := by
  unfold ensure_account_exists
  split
  · exact h
  · simp [List.any_append, h]

/-- After insert-or-ignore of a code, some row carries that code. -/
lemma ensure_establishes (t : List ARow) (c n ty : String) :
    (ensure_account_exists t c n ty).any (fun a => a.code == c) = true := by
  unfold ensure_account_exists
  split
  · assumption
  · simp [List.any_append]

/-- Insert-or-ignore of a code already present is the identity. -/
lemma ensure_id_of_present (t : List ARow) (c n ty : String)
    (h : t.any (fun a => a.code == c) = true) :
    ensure_account_exists t c n ty = t := by
  unfold ensure_account_exists
  rw [if_pos h]

/-- ensure_default_accounts is the identity on a table already containing
the four default codes. -/
lemma ensure_default_id_of_present (T : List ARow)
    (h1 : T.any (fun a => a.code == "1105") = true)
    (h2 : T.any (fun a => a.code == "4135") = true)
    (h3 : T.any (fun a => a.code == "2408") = true)
    (h4 : T.any (fun a => a.code == "6205") = true) :
    ensure_default_accounts T = T := by
  unfold ensure_default_accounts
  rw [ensure_id_of_present _ _ _ _ h1, ensure_id_of_present _ _ _ _ h2,
    ensure_id_of_present _ _ _ _ h3, ensure_id_of_present _ _ _ _ h4]

/-- C8: ensure_account_exists is idempotent: with at most one pre-existing
row per code (the UNIQUE constraint), one call leaves exactly one account row
with the given code and a second call with the same code changes nothing;
consequently ensure_default_accounts always leaves the four accounts 1105,
4135, 2408 and 6205 present and is itself idempotent. -/
theorem C8_account_creation_idempotent (t : List ARow) (c n ty : String)
    (h : countCode t c ≤ 1) :
    countCode (ensure_account_exists t c n ty) c = 1 ∧
    ensure_account_exists (ensure_account_exists t c n ty) c n ty =
      ensure_account_exists t c n ty ∧
    (∀ code ∈ ["1105", "4135", "2408", "6205"],
      (ensure_default_accounts t).any (fun a => a.code == code) = true) ∧
    ensure_default_accounts (ensure_default_accounts t) =
      ensure_default_accounts t := by
  refine ⟨?_, ?_, ?_, ?_⟩
  · by_cases hany : t.any (fun a => a.code == c) = true
    · rw [ensure_id_of_present t c n ty hany]
      rcases List.any_eq_true.mp hany with ⟨a, ha, hc⟩
      have hmem : a ∈ t.filter fun x => x.code == c :=
        List.mem_filter.mpr ⟨ha, hc⟩
      have hpos : 0 < countCode t c := List.length_pos_of_mem hmem
      omega
    · have h0 : countCode t c = 0 := by
        unfold countCode
        rw [List.length_eq_zero, List.filter_eq_nil_iff]
        intro a ha
        simp only [List.any_eq_true, not_exists, not_and] at hany
        exact fun hc => hany a ha hc
      unfold ensure_account_exists countCode
      rw [if_neg hany, List.filter_append]
      unfold countCode at h0
      simp [h0, List.length_eq_zero.mp h0]
  · exact ensure_id_of_present _ c n ty (ensure_establishes t c n ty)
  · intro code hcode
    unfold ensure_default_accounts
    simp only [List.mem_cons, List.not_mem_nil, or_false] at hcode
    rcases hcode with rfl | rfl | rfl | rfl
    · exact ensure_preserves_any _ _ _ _ _ (ensure_preserves_any _ _ _ _ _
        (ensure_preserves_any _ _ _ _ _ (ensure_establishes _ _ _ _)))
    · exact ensure_preserves_any _ _ _ _ _ (ensure_preserves_any _ _ _ _ _
        (ensure_establishes _ _ _ _))
    · exact ensure_preserves_any _ _ _ _ _ (ensure_establishes _ _ _ _)
    · exact ensure_establishes _ _ _ _
  · have h1105 : (ensure_default_accounts t).any
        (fun a => a.code == "1105") = true := by
      unfold ensure_default_accounts
      exact ensure_preserves_any _ _ _ _ _ (ensure_preserves_any _ _ _ _ _
        (ensure_preserves_any _ _ _ _ _ (ensure_establishes _ _ _ _)))
    have h4135 : (ensure_default_accounts t).any
        (fun a => a.code == "4135") = true := by
      unfold ensure_default_accounts
      exact ensure_preserves_any _ _ _ _ _ (ensure_preserves_any _ _ _ _ _
        (ensure_establishes _ _ _ _))
    have h2408 : (ensure_default_accounts t).any
        (fun a => a.code == "2408") = true := by
      unfold ensure_default_accounts
      exact ensure_preserves_any _ _ _ _ _ (ensure_establishes _ _ _ _)
    have h6205 : (ensure_default_accounts t).any
        (fun a => a.code == "6205") = true := by
      unfold ensure_default_accounts
      exact ensure_establishes _ _ _ _
    exact ensure_default_id_of_present _ h1105 h4135 h2408 h6205

/-- C8 (witness): creating account 1105 in an empty accounts table leaves
exactly one row with code 1105. -/
theorem C8_account_creation_idempotent_witness :
    countCode (ensure_account_exists [] "1105" "Caja" "Activo") "1105" = 1 :=
  (C8_account_creation_idempotent [] "1105" "Caja" "Activo" (by decide)).1

/-! ### Theorems about the transaction normalizer -/

/-- Characterization of the Montos block: either some cell failed to convert
and all five fields took the documented defaults, or every conversion
succeeded and each field that had no truthy cell was derived by its fallback
formula. -/
lemma montos_spec (r : Row) :
    montos r = ⟨1, 0, 0, 0, 0⟩ ∨
    (montosExc r = .ok (montos r) ∧
     (truthy r.quantity = false → (montos r).quantity = 1) ∧
     (truthy r.unit_price = false → (montos r).unit_price = 0) ∧
     (truthy r.subtotal = false →
       (montos r).subtotal = (montos r).quantity * (montos r).unit_price) ∧
     (truthy r.tax_amount = false → (montos r).tax_amount = 0) ∧
     (truthy r.amount = false →
       (montos r).amount = (montos r).subtotal + (montos r).tax_amount)) := by
  unfold montos montosExc
  cases hq : montoStep r.quantity 1 with
  | error e => left; rfl
  | ok q =>
    simp only [hq]
    cases hu : montoStep r.unit_price 0 with
    | error e => left; rfl
    | ok up =>
      simp only [hu]
      cases hs : montoStep r.subtotal (q * up) with
      | error e => left; rfl
      | ok st =>
        simp only [hs]
        cases ht : montoStep r.tax_amount 0 with
        | error e => left; rfl
        | ok tx =>
          simp only [ht]
          cases ha : montoStep r.amount (st + tx) with
          | error e => left; rfl
          | ok am =>
            simp only [ha]
            right
            refine ⟨trivial, fun h => ?_, fun h => ?_, fun h => ?_, fun h => ?_,
              fun h => ?_⟩ <;>
              simp only [montoStep, h, Bool.false_eq_true, if_false] at hq hu hs ht ha
            · exact (Except.ok.inj hq).symm
            · exact (Except.ok.inj hu).symm
            · exact (Except.ok.inj hs).symm
            · exact (Except.ok.inj ht).symm
            · exact (Except.ok.inj ha).symm

/-- C5 (counterexample): a row carrying an explicit truthy total cell that
disagrees with subtotal plus tax (subtotal 50, iva 10, total 100) yields a
TransactionLine whose subtotal + tax_amount differs from the parent
transaction amount, so the invariant does not hold for every input row. -/
theorem C5_counterexample :
    ¬ ((montos ⟨.pnone, .pnone, .pnum 50, .pnum 10, .pnum 100⟩).subtotal +
        (montos ⟨.pnone, .pnone, .pnum 50, .pnum 10, .pnum 100⟩).tax_amount =
       (montos ⟨.pnone, .pnone, .pnum 50, .pnum 10, .pnum 100⟩).amount) := by
  have h : montos ⟨.pnone, .pnone, .pnum 50, .pnum 10, .pnum 100⟩ =
      ⟨1, 0, 50, 10, 100⟩ := by rfl
  rw [h]
  norm_num

/-- C5 (amended): for every row whose total cell is absent or falsy — so the
amount is derived rather than taken from the sheet — the emitted line
satisfies subtotal + tax_amount = amount of the parent transaction (the
arithmetic is exact on rationals, so no floating-point tolerance is
needed). -/
theorem C5_line_sum_invariant (r : Row) (hamount : truthy r.amount = false) :
    (montos r).subtotal + (montos r).tax_amount = (montos r).amount := by
  rcases montos_spec r with hdef | ⟨_, _, _, _, _, hderive⟩
  · rw [hdef]; norm_num
  · exact (hderive hamount).symm

/-- C5 (witness): the amended invariant at a concrete row with subtotal 500000
and iva 95000 and no total column. -/
theorem C5_line_sum_invariant_witness :
    (montos ⟨.pnum 10, .pnum 50000, .pnum 500000, .pnum 95000, .pnone⟩).subtotal +
      (montos ⟨.pnum 10, .pnum 50000, .pnum 500000, .pnum 95000, .pnone⟩).tax_amount =
    (montos ⟨.pnum 10, .pnum 50000, .pnum 500000, .pnum 95000, .pnone⟩).amount :=
  C5_line_sum_invariant ⟨.pnum 10, .pnum 50000, .pnum 500000, .pnum 95000, .pnone⟩
    rfl

/-- C6 (counterexample): a row whose derived amount is 0 (here: every cell
absent, so amount defaults to subtotal + tax_amount = 0) yields a line whose
debit and credit are both zero, so exactly-one-non-zero fails for such
rows. -/
theorem C6_counterexample :
    ¬ ((lineDebit "sales_invoice" ⟨.pnone, .pnone, .pnone, .pnone, .pnone⟩ ≠ 0 ∧
        lineCredit "sales_invoice" ⟨.pnone, .pnone, .pnone, .pnone, .pnone⟩ = 0) ∨
       (lineDebit "sales_invoice" ⟨.pnone, .pnone, .pnone, .pnone, .pnone⟩ = 0 ∧
        lineCredit "sales_invoice" ⟨.pnone, .pnone, .pnone, .pnone, .pnone⟩ ≠ 0)) := by
  have hm : montos ⟨.pnone, .pnone, .pnone, .pnone, .pnone⟩ = ⟨1, 0, 0, 0, 0⟩ := by
    simp [montos, montosExc, montoStep, truthy, toFloat]
  simp [lineDebit, lineCredit, hm]

/-- C6 (amended): for every emitted line, the sales side credits the row
amount with a zero debit and the purchase side debits the row amount with a
zero credit; exactly one of debit and credit is non-zero precisely for rows
whose amount is non-zero; and rows whose amount is 0 have debit and credit
both 0. -/
theorem C6_line_single_side (r : Row) :
    (lineCredit "sales_invoice" r = (montos r).amount ∧
     lineDebit "sales_invoice" r = 0) ∧
    (lineDebit "purchase_invoice" r = (montos r).amount ∧
     lineCredit "purchase_invoice" r = 0) ∧
    (∀ dt, dt = "sales_invoice" ∨ dt = "purchase_invoice" →
      (((lineDebit dt r ≠ 0 ∧ lineCredit dt r = 0) ∨
        (lineDebit dt r = 0 ∧ lineCredit dt r ≠ 0)) ↔
       (montos r).amount ≠ 0)) ∧
    ((montos r).amount = 0 →
      ∀ dt, lineDebit dt r = 0 ∧ lineCredit dt r = 0) := by
  refine ⟨⟨rfl, rfl⟩, ⟨rfl, rfl⟩, ?_, ?_⟩
  · rintro dt (rfl | rfl)
    · constructor
      · rintro (⟨hd, _⟩ | ⟨_, hc⟩)
        · exact absurd rfl hd
        · simpa [lineCredit] using hc
      · intro hnz
        exact Or.inr ⟨rfl, by simpa [lineCredit] using hnz⟩
    · constructor
      · rintro (⟨hd, _⟩ | ⟨_, hc⟩)
        · simpa [lineDebit] using hd
        · exact absurd rfl hc
      · intro hnz
        exact Or.inl ⟨by simpa [lineDebit] using hnz, rfl⟩
  · intro h0 dt
    unfold lineDebit lineCredit
    constructor <;> split <;> simp [h0]

/-- C6 (witness): the amended claim at a concrete sales row with subtotal 50
and iva 10, whose derived amount 60 is non-zero, exercising the backward
direction of the exactly-one-non-zero equivalence. -/
theorem C6_line_single_side_witness :
    (lineDebit "sales_invoice" ⟨.pnone, .pnone, .pnum 50, .pnum 10, .pnone⟩ ≠ 0 ∧
     lineCredit "sales_invoice" ⟨.pnone, .pnone, .pnum 50, .pnum 10, .pnone⟩ = 0) ∨
    (lineDebit "sales_invoice" ⟨.pnone, .pnone, .pnum 50, .pnum 10, .pnone⟩ = 0 ∧
     lineCredit "sales_invoice" ⟨.pnone, .pnone, .pnum 50, .pnum 10, .pnone⟩ ≠ 0) :=
  (((C6_line_single_side ⟨.pnone, .pnone, .pnum 50, .pnum 10, .pnone⟩).2.2.1
    "sales_invoice" (Or.inl rfl)).mpr (by norm_num [montos, montosExc, montoStep,
      truthy, toFloat]))

/-- C7: row normalization is total on the numeric cells: a conversion failure
anywhere defaults the five fields to quantity = 1 and 0 for the rest and the
row is still emitted; when every conversion succeeds, a missing subtotal is
derived as quantity * unit_price and a missing total as
subtotal + tax_amount. -/
theorem C7_normalization_total (r : Row) :
    (montosExc r = .ok (montos r) ∨ montos r = ⟨1, 0, 0, 0, 0⟩) ∧
    ((∃ e, montosExc r = .error e) → montos r = ⟨1, 0, 0, 0, 0⟩) ∧
    (montosExc r = .ok (montos r) →
      (truthy r.subtotal = false →
        (montos r).subtotal = (montos r).quantity * (montos r).unit_price) ∧
      (truthy r.amount = false →
        (montos r).amount = (montos r).subtotal + (montos r).tax_amount)) := by
  refine ⟨?_, ?_, ?_⟩
  · rcases montos_spec r with hdef | ⟨hok, _⟩
    · exact Or.inr hdef
    · exact Or.inl hok
  · rintro ⟨e, he⟩
    unfold montos
    rw [he]
  · intro hok
    rcases montos_spec r with hdef | ⟨_, _, _, hsub, _, hamt⟩
    · constructor
      · intro _; rw [hdef]; norm_num
      · intro _; rw [hdef]; norm_num
    · exact ⟨hsub, hamt⟩

/-- C7 (witness): a malformed subtotal cell (the non-numeric string abc)
makes float raise ValueError, and the row is emitted with the default
fields. -/
theorem C7_normalization_total_witness :
    montos ⟨.pnum 2, .pnum 5, .pstr "abc", .pnum 3, .pnum 13⟩ =
      ⟨1, 0, 0, 0, 0⟩ :=
  (C7_normalization_total ⟨.pnum 2, .pnum 5, .pstr "abc", .pnum 3, .pnum 13⟩).2.1
    ⟨(), rfl⟩

/-! ### Theorems about transaction-number deduplication -/

/-- With enough fuel, decAux computes the little-endian base-10 digits. -/
lemma decAux_eq_digits (fuel : Nat) : ∀ n, n < fuel →
    decAux fuel n = Nat.digits 10 n := by
  induction fuel with
  | zero => intro n h; omega
  | succ fuel ih =>
    intro n h
    unfold decAux
    by_cases h0 : n = 0
    · simp [h0]
    · rw [if_neg h0, Nat.digits_def' (by norm_num : 1 < 10) (Nat.pos_of_ne_zero h0)]
      congr 1
      exact ih (n / 10) (by
        have h1 : n / 10 < n := Nat.div_lt_self (Nat.pos_of_ne_zero h0) (by norm_num)
        omega)

/-- Nat.digitChar is injective on single digits. -/
lemma digitChar_inj_lt : ∀ d < 10, ∀ e < 10, Nat.digitChar d = Nat.digitChar e →
    d = e := by
  decide

/-- Mapping digit lists through Nat.digitChar is injective. -/
lemma map_digitChar_inj : ∀ (l₁ l₂ : List Nat), (∀ d ∈ l₁, d < 10) →
    (∀ d ∈ l₂, d < 10) → l₁.map Nat.digitChar = l₂.map Nat.digitChar → l₁ = l₂ := by
  intro l₁
  induction l₁ with
  | nil => intro l₂ _ _ h; cases l₂ <;> simp_all
  | cons a t ih =>
    intro l₂ h1 h2 h
    cases l₂ with
    | nil => simp at h
    | cons b t₂ =>
      simp only [List.map_cons, List.cons.injEq] at h
      have hab := digitChar_inj_lt a (h1 a (by simp)) b (h2 b (by simp)) h.1
      subst hab
      rw [ih t₂ (fun d hd => h1 d (by simp [hd])) (fun d hd => h2 d (by simp [hd]))
        h.2]

/-- The decimal rendering is injective on positive numbers. -/
lemma decStr_inj {m n : Nat} (hm : 0 < m) (hn : 0 < n) (h : decStr m = decStr n) :
    m = n := by
  unfold decStr at h
  rw [if_neg (by omega), if_neg (by omega)] at h
  have hdata : ((decAux (m + 1) m).map Nat.digitChar).reverse =
      ((decAux (n + 1) n).map Nat.digitChar).reverse := congrArg String.data h
  have hmap := List.reverse_injective hdata
  rw [decAux_eq_digits (m + 1) m (by omega),
    decAux_eq_digits (n + 1) n (by omega)] at hmap
  have hdig := map_digitChar_inj _ _
    (fun d hd => Nat.digits_lt_base (by norm_num) hd)
    (fun d hd => Nat.digits_lt_base (by norm_num) hd) hmap
  calc m = Nat.ofDigits 10 (Nat.digits 10 m) := (Nat.ofDigits_digits 10 m).symm
    _ = Nat.ofDigits 10 (Nat.digits 10 n) := by rw [hdig]
    _ = n := Nat.ofDigits_digits 10 n

/-- The decimal rendering of a positive number is a non-empty string. -/
lemma decStr_pos_length {n : Nat} (hn : 0 < n) : 0 < (decStr n).length := by
  unfold decStr
  rw [if_neg (by omega)]
  rw [String.length_mk, List.length_reverse, List.length_map]
  unfold decAux
  rw [if_neg (by omega)]
  simp

/-- Distinct indices give distinct candidate transaction numbers. -/
lemma nthCandidate_inj (x : String) : Function.Injective (nthCandidate x) := by
  intro m n h
  match m, n with
  | 0, 0 => rfl
  | 0, n + 1 =>
    exfalso
    have hlen := congrArg String.length h
    simp only [nthCandidate, String.length_append,
      (by rfl : ("-DUP" : String).length = 4)] at hlen
    have := decStr_pos_length (show 0 < n + 1 by omega)
    omega
  | m + 1, 0 =>
    exfalso
    have hlen := congrArg String.length h
    simp only [nthCandidate, String.length_append,
      (by rfl : ("-DUP" : String).length = 4)] at hlen
    have := decStr_pos_length (show 0 < m + 1 by omega)
    omega
  | m + 1, n + 1 =>
    have hdata := congrArg String.data h
    simp only [nthCandidate, String.data_append] at hdata
    have hsuffix := List.append_cancel_left hdata
    have heq : decStr (m + 1) = decStr (n + 1) := String.ext hsuffix
    have := decStr_inj (show 0 < m + 1 by omega) (show 0 < n + 1 by omega) heq
    omega

/-- The fresh number chosen for a row is never one already used: the search
space of used.length + 2 pairwise-distinct candidates cannot be contained in
the used set. -/
lemma freshNumber_not_mem (used : List String) (x : String) :
    freshNumber used x ∉ used := by
  unfold freshNumber
  cases hfind : ((List.range (used.length + 2)).map (nthCandidate x)).find?
      (fun c => decide (c ∉ used)) with
  | some c =>
    have := List.find?_some hfind
    simp only [decide_eq_true_eq] at this
    simpa using this
  | none =>
    exfalso
    have hall := List.find?_eq_none.mp hfind
    have hsub : ∀ c ∈ (List.range (used.length + 2)).map (nthCandidate x),
        c ∈ used := by
      intro c hc
      have := hall c hc
      simp only [decide_eq_true_eq, not_not] at this
      exact this
    have hnodup : ((List.range (used.length + 2)).map (nthCandidate x)).Nodup :=
      (List.nodup_range _).map (nthCandidate_inj x)
    have hcard :
        ((List.range (used.length + 2)).map (nthCandidate x)).toFinset.card
          = used.length + 2 := by
      rw [List.toFinset_card_of_nodup hnodup, List.length_map, List.length_range]
    have hsubF : ((List.range (used.length + 2)).map (nthCandidate x)).toFinset
        ⊆ used.toFinset := by
      intro a ha
      rw [List.mem_toFinset] at ha ⊢
      exact hsub a ha
    have h1 := Finset.card_le_card hsubF
    have h2 := used.toFinset_card_le
    omega

/-- The first hit of find? over a mapped range is the least index
satisfying the predicate. -/
lemma find?_map_range_first (f : Nat → String) (p : String → Bool) :
    ∀ (K : Nat) (c : String), ((List.range K).map f).find? p = some c →
    ∃ n < K, c = f n ∧ p (f n) = true ∧ ∀ k < n, p (f k) = false := by
  intro K
  induction K with
  | zero => intro c h; simp at h
  | succ K ih =>
    intro c h
    rw [List.range_succ, List.map_append, List.find?_append] at h
    cases hfirst : ((List.range K).map f).find? p with
    | some c' =>
      rw [hfirst] at h
      simp only [Option.or_some] at h
      obtain ⟨n, hn, rfl, hp, hbefore⟩ := ih c' hfirst
      cases h
      exact ⟨n, by omega, rfl, hp, hbefore⟩
    | none =>
      rw [hfirst] at h
      simp only [Option.none_or] at h
      have hall := List.find?_eq_none.mp hfirst
      simp only [List.map_cons, List.map_nil] at h
      rcases List.find?_cons_eq_some.mp h with ⟨hp, rfl⟩ | ⟨_, habs⟩
      · refine ⟨K, by omega, rfl, hp, fun k hk => ?_⟩
        have := hall (f k) (List.mem_map_of_mem f (List.mem_range.mpr hk))
        exact Bool.eq_false_iff.mpr this
      · simp at habs

/-- The chosen number is the first candidate in the order raw, raw-DUP1,
raw-DUP2, ... that is not already used: the while-loop semantics of
ingest_excel. -/
lemma freshNumber_spec (used : List String) (x : String) :
    ∃ n, freshNumber used x = nthCandidate x n ∧
      nthCandidate x n ∉ used ∧ ∀ k < n, nthCandidate x k ∈ used := by
  cases hfind : ((List.range (used.length + 2)).map (nthCandidate x)).find?
      (fun c => decide (c ∉ used)) with
  | some c =>
    obtain ⟨n, hn, rfl, hp, hbefore⟩ := find?_map_range_first _ _ _ c hfind
    refine ⟨n, ?_, by simpa using hp, fun k hk => ?_⟩
    · unfold freshNumber
      rw [hfind]
      rfl
    · have := hbefore k hk
      simpa using this
  | none =>
    exfalso
    have hfresh := freshNumber_not_mem used x
    unfold freshNumber at hfresh
    rw [hfind] at hfresh
    simp only [Option.getD_none] at hfresh
    have hall := List.find?_eq_none.mp hfind
    have h0 : nthCandidate x 0 ∈
        (List.range (used.length + 2)).map (nthCandidate x) :=
      List.mem_map_of_mem _ (List.mem_range.mpr (by omega))
    have hx := hall _ h0
    simp only [decide_eq_true_eq, not_not] at hx
    exact hfresh hx

/-- Batch assignment is total (one number per row) and the assigned numbers
are pairwise distinct and distinct from every pre-existing number. -/
lemma assignNumbers_spec (raws : List String) : ∀ used : List String,
    (assignNumbers used raws).length = raws.length ∧
    (assignNumbers used raws).Nodup ∧
    ∀ a ∈ assignNumbers used raws, a ∉ used := by
  induction raws with
  | nil => intro used; simp [assignNumbers]
  | cons x xs ih =>
    intro used
    obtain ⟨ihlen, ihnodup, ihfresh⟩ := ih (freshNumber used x :: used)
    refine ⟨by simp [assignNumbers, ihlen], ?_, ?_⟩
    · simp only [assignNumbers, List.nodup_cons]
      refine ⟨fun hmem => ?_, ihnodup⟩
      have := ihfresh _ hmem
      simp at this
    · intro a ha
      simp only [assignNumbers, List.mem_cons] at ha
      rcases ha with rfl | ha
      · exact freshNumber_not_mem used x
      · have := ihfresh a ha
        simp only [List.mem_cons, not_or] at this
        exact this.2

/-- C4: transaction-number deduplication: a colliding raw number is replaced
by the first unused candidate among raw-DUP1, raw-DUP2, ... (n starting at 1
and incrementing); two rows with the same raw number on an empty ledger get
the numbers X and X-DUP1 and a third gets X-DUP2; every row receives a
number, and the assigned numbers are unique across batch and pre-existing
ledger. -/
theorem C4_dedup_unique :
    (assignNumbers [] ["FAC-001", "FAC-001"] = ["FAC-001", "FAC-001-DUP1"]) ∧
    (assignNumbers [] ["FAC-001", "FAC-001", "FAC-001"] =
      ["FAC-001", "FAC-001-DUP1", "FAC-001-DUP2"]) ∧
    (∀ used x, ∃ n, freshNumber used x = nthCandidate x n ∧
      nthCandidate x n ∉ used ∧ ∀ k < n, nthCandidate x k ∈ used) ∧
    (∀ existing raws, (assignNumbers existing raws).length = raws.length ∧
      (assignNumbers existing raws).Nodup ∧
      ∀ a ∈ assignNumbers existing raws, a ∉ existing) :=
  ⟨by decide, by decide, freshNumber_spec,
    fun existing raws => assignNumbers_spec raws existing⟩

/-- C4 (witness): the general uniqueness statement applied at a concrete
collision: the number assigned for a second FAC-001 is not the pre-existing
FAC-001. -/
theorem C4_dedup_unique_witness : "FAC-001-DUP1" ∉ (["FAC-001"] : List String) :=
  (C4_dedup_unique.2.2.2 ["FAC-001"] ["FAC-001"]).2.2 "FAC-001-DUP1" (by decide)

end IAContable
